import Mathlib

/-
  Verification development for the Shh.Cash relay-node client.

  The definitions below are a shallow embedding of the TypeScript sources:

  * `WalletManager`  — src/wallet/WalletManager.ts (relay-wallet rotation,
       balance validation).  Balances are modelled in integer lamports; the
       source computes `balanceSOL = lamports / LAMPORTS_PER_SOL` and compares
       against `0.01`, which is the comparison `lamports < 10_000_000`.
  * `DispatcherClient` — src/api/DispatcherClient.ts (`acceptOffer`,
       `submitReceipt`, `sendHeartbeat`), modelled as functions of the HTTP
       outcome of the underlying `fetch` call.
  * `TransactionExecutor` — src/execution/TransactionExecutor.ts (`execute`),
       modelled as a function of the offer and of an environment recording the
       outcome of each fallible chain interaction.
  * `ShhNode` — src/node/ShhNode.ts (`validateOffer`, `handleOffer`,
       `getHealthStatus`, `stop`), with the active-offer `Map` modelled as an
       association list.

  The amount field of an offer travels as a decimal string in the source and
  is read with `parseInt`; it is modelled here as the parsed natural number.
  The asset field is typed as the union of SOL and USDC in TypeScript but it
  network unvalidated, so it is modelled as a `String` (the executor has an
  explicit unsupported-asset branch).
-/

deriving instance DecidableEq for Except

namespace ShhCash

/-! ## Data model (src/types/index.ts) -/

/-- An offer, as received from the dispatcher.  `expiresAt` is an optional
millisecond timestamp (`none` when the JS field is `undefined`). -/
structure Offer where
  id : String
  partId : String
  asset : String
  amount : Nat
  recipient : String
  feeLamports : Nat
  expiresAt : Option Nat
deriving DecidableEq, Repr

/-- The outcome of attempting an offer, reported back to the dispatcher. -/
structure ExecutionReceipt where
  partId : String
  txSignature : String
  spentLamports : Nat
  feePaid : Nat
  timestamp : Nat
  success : Bool
  error : Option String
deriving DecidableEq, Repr

/-! ## Wallet pool (src/wallet/WalletManager.ts) -/

/-- The mutable state of `WalletManager`: the ordered pool of relay keypairs
and the rotation cursor.  The keypair type is abstract. -/
structure WalletManager (K : Type) where
  relayKeypairs : List K
  currentRelayIndex : Nat
deriving DecidableEq, Repr

/-- `WalletManager.getNextRelayWallet`: throws when the pool is empty,
otherwise returns the keypair at the cursor and advances the cursor by
`(cursor + 1) % N`.  The JS array access `relayKeypairs[currentRelayIndex]`
yields `undefined` out of range, hence the `Option` in the result; reachable
states keep the cursor in range so the lookup succeeds there. -/
def getNextRelayWallet {K : Type} (wm : WalletManager K) :
    Except String (Option K × WalletManager K) :=
  if wm.relayKeypairs.length = 0 then
    .error ("No relay wallets available")
  else
    .ok (wm.relayKeypairs.get? wm.currentRelayIndex,
      { wm with currentRelayIndex :=
          (wm.currentRelayIndex + 1) % wm.relayKeypairs.length })

/-- Runs `k` consecutive `getNextRelayWallet` calls, collecting the returned
wallets in order together with the final pool state.  A thrown error stops
the run (it only arises on the empty pool, where no wallet is returned). -/
def runNextCalls {K : Type} (wm : WalletManager K) : Nat → List (Option K) × WalletManager K
  | 0 => ([], wm)
  | k + 1 =>
    match getNextRelayWallet wm with
    | .error _ => ([], wm)
    | .ok (w, wm2) =>
      let rest := runNextCalls wm2 k
      (w :: rest.1, rest.2)

/-- The minimum balance threshold: 0.01 SOL, in lamports. -/
def minBalanceLamports : Nat := 10000000

/-- The message of the error thrown by `validateBalances`. -/
def insufficientMsg : String :=
  "All wallets have insufficient balance. Please fund your relay wallets."

/-- `WalletManager.validateBalances`, as a function of the relay-wallet SOL
balances (in lamports).  Returns the validation outcome together with the
list of wallets named in the low-balance warning (empty when no warning is
logged).  The source throws exactly when every wallet is below the minimum
(`lowBalanceWallets.length === balances.length`). -/
def validateBalances (balances : List Nat) : Except String Unit × List Nat :=
  let lowBalanceWallets := balances.filter (fun b => b < minBalanceLamports)
  (if lowBalanceWallets.length = balances.length then .error insufficientMsg
   else .ok (), lowBalanceWallets)

/-! ## Dispatch gateway (src/api/DispatcherClient.ts) -/

/-- The outcome of one `fetch` call: either a resolved HTTP response, carrying
its status code and status text, or a rejected promise (transport-level
failure).  `fetch` marks a response `ok` exactly when the status is 200-299. -/
inductive HttpReply
  | response (status : Nat) (statusText : String)
  | network (msg : String)
deriving DecidableEq, Repr

/-- Whether a resolved response is `ok` in the `fetch` sense. -/
def responseOk (status : Nat) : Bool := 200 ≤ status && status < 300

/-- `DispatcherClient.acceptOffer`, as a function of the HTTP outcome of the
claim request.  Status 409 (offer already claimed by another node) yields
`false`; any other non-ok response throws; an ok response yields `true`.
A rejected `fetch` propagates as a thrown error. -/
def acceptOffer (reply : HttpReply) : Except String Bool :=
  match reply with
  | .response status statusText =>
    if status = 409 then .ok false
    else if !(responseOk status) then .error ("Failed to accept offer: " ++ statusText)
    else .ok true
  | .network msg => .error msg

/-- `DispatcherClient.submitReceipt`: throws on any non-ok response and on a
rejected `fetch`; returns unit otherwise. -/
def submitReceipt (reply : HttpReply) : Except String Unit :=
  match reply with
  | .response status statusText =>
    if !(responseOk status) then .error ("Failed to submit receipt: " ++ statusText)
    else .ok ()
  | .network msg => .error msg

/-- `DispatcherClient.sendHeartbeat`: a non-ok response is only logged as a
warning and the call returns normally; there is no catch around the `fetch`
itself, so a rejected `fetch` (transport failure) propagates to the caller. -/
def sendHeartbeat (reply : HttpReply) : Except String Unit :=
  match reply with
  | .response _ _ => .ok ()
  | .network msg => .error msg

/-- The heartbeat counters of `Metrics` (src/monitoring/Metrics.ts). -/
structure MetricsState where
  heartbeats : Nat
  heartbeatErrors : Nat
deriving DecidableEq, Repr

/-- One tick of the heartbeat timer installed by `ShhNode.startHeartbeat`:
the whole body is wrapped in try/catch, so a `sendHeartbeat` success records
a heartbeat and any thrown error is swallowed and recorded as a heartbeat
error.  The tick itself never throws. -/
def heartbeatTick (m : MetricsState) (reply : HttpReply) : MetricsState :=
  match sendHeartbeat reply with
  | .ok _ => { m with heartbeats := m.heartbeats + 1 }
  | .error _ => { m with heartbeatErrors := m.heartbeatErrors + 1 }

/-! ## Execution engine (src/execution/TransactionExecutor.ts) -/

/-- The fee charged when the recipient USDC token account must be created:
`0.002 * LAMPORTS_PER_SOL` (exact in double precision). -/
def ataCreationFeeLamports : Nat := 2000000

/-- The environment of one `execute` call: the outcome of each fallible
interaction with the chain.  `parseRecipient` is `new PublicKey(recipient)`
(throws on a malformed address), `blockhash` is `getLatestBlockhash`,
`recipientAtaExists` records whether `getAccount` finds the recipient token
account, and `chain` is `sendAndConfirmTransaction` (a signature, or a thrown
submission/confirmation error). -/
structure ExecEnv where
  parseRecipient : Except String Unit
  blockhash : Except String Unit
  recipientAtaExists : Bool
  chain : Except String String
deriving DecidableEq, Repr

/-- The asset dispatch of `execute`: `createSOLTransfer` spends the requested
amount, `createUSDCTransfer` spends only the token-account creation fee (zero
when the recipient account already exists), and any other asset kind throws.
Returns `spentLamports`, or the first thrown construction error. -/
def constructTransfer (offer : Offer) (env : ExecEnv) : Except String Nat :=
  if offer.asset = "SOL" then
    match env.blockhash with
    | .error e => .error e
    | .ok _ => .ok offer.amount
  else if offer.asset = "USDC" then
    match env.blockhash with
    | .error e => .error e
    | .ok _ => .ok (if env.recipientAtaExists then 0 else ataCreationFeeLamports)
  else .error ("Unsupported asset: " ++ offer.asset)

/-- The try-block of `TransactionExecutor.execute`: wallet selection,
recipient parsing, asset-specific transfer construction (computing the spent
amount), then submission.  Returns the signature and `spentLamports`, or the
first thrown error.  A relay lookup returning `undefined` would fault when
dereferenced, modelled as a thrown error. -/
def executeBody {K : Type} (wm : WalletManager K) (offer : Offer) (env : ExecEnv) :
    Except String (String × Nat) :=
  match getNextRelayWallet wm with
  | .error e => .error e
  | .ok sel =>
    match sel.1 with
    | none => .error ("Cannot read properties of undefined")
    | some _ =>
      match env.parseRecipient with
      | .error e => .error e
      | .ok _ =>
        match constructTransfer offer env with
        | .error e => .error e
        | .ok spent =>
          match env.chain with
          | .error e => .error e
          | .ok sig => .ok (sig, spent)

/-- `TransactionExecutor.execute`: the try-block converted into a receipt.
Total by construction — the catch turns every thrown error into a failure
receipt with an empty signature, zero amounts, and the error message. -/
def execute {K : Type} (wm : WalletManager K) (offer : Offer) (env : ExecEnv)
    (now : Nat) : ExecutionReceipt :=
  match executeBody wm offer env with
  | .ok res =>
    { partId := offer.partId, txSignature := res.1, spentLamports := res.2,
      feePaid := offer.feeLamports, timestamp := now, success := true,
      error := none }
  | .error msg =>
    { partId := offer.partId, txSignature := "", spentLamports := 0,
      feePaid := 0, timestamp := now, success := false, error := some msg }

/-! ## Offer coordinator (src/node/ShhNode.ts) -/

/-- The admission-control configuration read by `validateOffer`:
`MAX_PER_TX_LAMPORTS` (default 500000000) and `config.node.maxConcurrent`. -/
structure AdmissionConfig where
  maxPerTxLamports : Nat
  maxConcurrent : Nat
deriving DecidableEq, Repr

/-- The expiry check of `ShhNode.validateOffer`: the JS condition
`offer.expiresAt && Date.now() > offer.expiresAt`.  It fires only when the
field is set, nonzero (zero is falsy in JS), and strictly in the past. -/
def offerExpired (now : Nat) (expiresAt : Option Nat) : Bool :=
  match expiresAt with
  | some e => e != 0 && decide (e < now)
  | none => false

/-- `ShhNode.validateOffer`.  The checks run in source order: the per-tx
ceiling (base asset only), then capacity, then expiry. -/
def validateOffer (cfg : AdmissionConfig) (activeSize : Nat) (now : Nat)
    (offer : Offer) : Bool :=
  if offer.asset = "SOL" ∧ cfg.maxPerTxLamports < offer.amount then false
  else if cfg.maxConcurrent ≤ activeSize then false
  else if offerExpired now offer.expiresAt then false
  else true

/-- The active-offer set, a JS `Map` keyed by offer id, as an association
list in insertion order. -/
abbrev OfferMap := List (String × Offer)

/-- `Map.set`: replaces the value in place when the key is present, appends
otherwise. -/
def mapSet (m : OfferMap) (k : String) (v : Offer) : OfferMap :=
  if m.any (fun p => p.1 == k) then
    m.map (fun p => if p.1 == k then (k, v) else p)
  else m ++ [(k, v)]

/-- `Map.delete`: removes the entry with the given key (a no-op when
absent). -/
def mapDelete (m : OfferMap) (k : String) : OfferMap :=
  m.filter (fun p => p.1 != k)

/-- `Map.get`, as an `Option`. -/
def mapLookup (m : OfferMap) (k : String) : Option Offer :=
  (m.find? (fun p => p.1 == k)).map (fun p => p.2)

/-- The dispatcher and executor outcomes observed during one `handleOffer`
run: the HTTP outcome of the claim request, the result of awaiting
`executor.execute` (in the source this promise always resolves with a
receipt; an `error` value injects a forced fault), and the HTTP outcome of
the receipt submission. -/
structure DispatchEnv where
  claimReply : HttpReply
  execResult : Except String ExecutionReceipt
  submitReply : HttpReply
deriving DecidableEq, Repr

/-- What one `handleOffer` run did: the resulting active-offer set, whether a
claim request was sent, whether the offer entered the active set, whether a
receipt submission was attempted, and which metrics were recorded. -/
structure HandleResult where
  activeOffers : OfferMap
  claimSent : Bool
  inserted : Bool
  receiptSubmitted : Bool
  recordedAccepted : Bool
  recordedCompleted : Bool
  recordedFailed : Bool
deriving DecidableEq, Repr

/-- `ShhNode.handleOffer`.  Validation failure drops the offer silently; a
thrown claim error is caught at the top level (which deletes the offer id
from the active set — a no-op, it was never inserted — and records a
failure); a lost claim race drops the offer; a won claim inserts the offer
into the active set, executes, submits the receipt, and deletes the offer —
the top-level catch also deletes it when execution or submission throws. -/
def handleOffer (cfg : AdmissionConfig) (now : Nat) (active : OfferMap)
    (offer : Offer) (env : DispatchEnv) : HandleResult :=
  if ¬ validateOffer cfg active.length now offer then
    ⟨active, false, false, false, false, false, false⟩
  else
    match acceptOffer env.claimReply with
    | .error _ => ⟨mapDelete active offer.id, true, false, false, false, false, true⟩
    | .ok false => ⟨active, true, false, false, false, false, false⟩
    | .ok true =>
      let a1 := mapSet active offer.id offer
      match env.execResult with
      | .error _ => ⟨mapDelete a1 offer.id, true, true, false, true, false, true⟩
      | .ok _ =>
        match submitReceipt env.submitReply with
        | .error _ => ⟨mapDelete a1 offer.id, true, true, true, true, false, true⟩
        | .ok _ => ⟨mapDelete a1 offer.id, true, true, true, true, true, false⟩

/-- The coordinator state relevant to offer handling: the runtime flag set by
`start`/`stop` and the active-offer set. -/
structure NodeState where
  isRunning : Bool
  activeOffers : OfferMap
deriving DecidableEq, Repr

/-- The state change of `ShhNode.stop`: clears `isRunning` (the drain wait,
disconnect and monitoring teardown do not touch the offer-handling state). -/
def nodeStop (s : NodeState) : NodeState :=
  if s.isRunning then { s with isRunning := false } else s

/-- `handleOffer` as a transition on the full coordinator state.  The method
reads `activeOffers` and the configuration but never consults `isRunning`:
shutdown does not gate offer handling in the source. -/
def nodeHandleOffer (cfg : AdmissionConfig) (now : Nat) (s : NodeState)
    (offer : Offer) (env : DispatchEnv) : NodeState × HandleResult :=
  let r := handleOffer cfg now s.activeOffers offer env
  ({ s with activeOffers := r.activeOffers }, r)

/-- The three health levels of `ShhNode.getHealthStatus`. -/
inductive HealthLevel
  | healthy
  | degraded
  | unhealthy
deriving DecidableEq, Repr

/-- The status computation of `ShhNode.getHealthStatus`, as a function of the
relay-wallet SOL balances (in lamports): healthy by default, degraded when
some wallet is below the 0.01 SOL minimum, unhealthy when all are. -/
def getHealthStatus (wallets : List Nat) : HealthLevel :=
  let lowBalanceWallets := wallets.filter (fun b => b < minBalanceLamports)
  if 0 < lowBalanceWallets.length then
    if lowBalanceWallets.length = wallets.length then .unhealthy else .degraded
  else .healthy

/-! ## Concrete fixtures used by closed theorems -/

/-- A well-formed base-asset offer used as a concrete input. -/
def solOffer : Offer :=
  { id := "offer-1", partId := "part-1", asset := "SOL", amount := 1000,
    recipient := "Rcpt111", feeLamports := 10, expiresAt := none }

/-- A successful receipt for `solOffer`. -/
def solReceipt : ExecutionReceipt :=
  { partId := "part-1", txSignature := "SIG1", spentLamports := 1000,
    feePaid := 10, timestamp := 1000, success := true, error := none }

/-- A failed receipt (empty signature, error detail). -/
def failedReceipt : ExecutionReceipt :=
  { partId := "part-1", txSignature := "", spentLamports := 0,
    feePaid := 0, timestamp := 1000, success := false,
    error := some ("blockhash not found") }

/-- A run in which the claim succeeds, execution returns a failed receipt,
and the receipt submission faults at the transport level. -/
def faultyEnv : DispatchEnv :=
  { claimReply := .response 200 "OK", execResult := .ok failedReceipt,
    submitReply := .network ("socket hang up") }

/-- A run in which everything succeeds. -/
def happyEnv : DispatchEnv :=
  { claimReply := .response 200 "OK", execResult := .ok solReceipt,
    submitReply := .response 200 "OK" }

/-- A run in which the dispatcher answers the claim with HTTP 409. -/
def lostRaceEnv : DispatchEnv :=
  { claimReply := .response 409 "Conflict", execResult := .ok solReceipt,
    submitReply := .response 200 "OK" }

/-- The default admission configuration: 500000000 lamports per transaction,
five concurrent offers. -/
def defaultCfg : AdmissionConfig :=
  { maxPerTxLamports := 500000000, maxConcurrent := 5 }

/-- A base-asset offer whose expiry equals the evaluation instant. -/
def boundaryOffer : Offer :=
  { id := "offer-3", partId := "part-3", asset := "SOL", amount := 1000,
    recipient := "Rcpt111", feeLamports := 10, expiresAt := some 1000 }

/-- A base-asset offer carrying a zero expiry timestamp. -/
def zeroExpiryOffer : Offer :=
  { id := "offer-4", partId := "part-4", asset := "SOL", amount := 1000,
    recipient := "Rcpt111", feeLamports := 10, expiresAt := some 0 }

/-- The per-transaction ceiling example: a 600000000-lamport base-asset offer
against the 500000000 default ceiling. -/
def bigOffer : Offer :=
  { id := "offer-5", partId := "part-5", asset := "SOL", amount := 600000000,
    recipient := "Rcpt111", feeLamports := 10, expiresAt := none }

/-- A secondary-asset offer over the base-asset ceiling. -/
def usdcBigOffer : Offer :=
  { id := "offer-6", partId := "part-6", asset := "USDC", amount := 600000000,
    recipient := "Rcpt111", feeLamports := 10, expiresAt := none }

/-- An offer with an asset kind the executor does not support. -/
def dogeOffer : Offer :=
  { id := "offer-7", partId := "part-7", asset := "DOGE", amount := 1000,
    recipient := "Rcpt111", feeLamports := 10, expiresAt := none }

/-- The receipt-correctness example offer: 10000000 lamports of the base
asset. -/
def execOffer : Offer :=
  { id := "offer-8", partId := "part-9", asset := "SOL", amount := 10000000,
    recipient := "Rcpt111", feeLamports := 500, expiresAt := none }

/-- A one-wallet pool with the cursor at 0. -/
def wm1 : WalletManager Nat := ⟨[7], 0⟩

/-- An execution environment in which every chain interaction succeeds and
the submission confirms with signature SIG1. -/
def okExecEnv : ExecEnv :=
  { parseRecipient := .ok (), blockhash := .ok (),
    recipientAtaExists := true, chain := .ok ("SIG1") }

/-! ## Helper lemmas -/

/-- Deleting a key from the active-offer map removes every entry under it. -/
lemma mapLookup_mapDelete (m : OfferMap) (k : String) :
    mapLookup (mapDelete m k) k = none := by
  have h : (mapDelete m k).find? (fun p => p.1 == k) = none := by
    rw [List.find?_eq_none]
    intro x hx
    have hxk := (List.mem_filter.mp hx).2
    simp only [bne_iff_ne, ne_eq] at hxk
    simp [hxk]
  simp [mapLookup, h]

/-- A filter keeps the whole list exactly when every element satisfies the
predicate. -/
lemma filter_length_eq_iff (p : Nat → Bool) (l : List Nat) :
    (l.filter p).length = l.length ↔ ∀ b ∈ l, p b := by
  induction l with
  | nil => simp
  | cons a t ih =>
    by_cases h : p a
    · simp [List.filter_cons, h, ih]
    · have hle := t.length_filter_le p
      simp only [List.filter_cons, h, Bool.false_eq_true, if_false, List.length_cons,
        List.mem_cons]
      constructor
      · intro hlen; omega
      · intro hall; exact absurd (hall a (Or.inl rfl)) (by simp [h])

/-- A filter is nonempty exactly when some element satisfies the predicate. -/
lemma filter_length_pos_iff (p : Nat → Bool) (l : List Nat) :
    0 < (l.filter p).length ↔ ∃ b ∈ l, p b := by
  rw [List.length_pos]
  constructor
  · intro hne
    rcases List.exists_mem_of_ne_nil _ hne with ⟨b, hb⟩
    exact ⟨b, (List.mem_filter.mp hb).1, (List.mem_filter.mp hb).2⟩
  · rintro ⟨b, hb, hpb⟩
    exact List.ne_nil_of_mem (List.mem_filter.mpr ⟨hb, hpb⟩)

/-- The expiry check rejects nothing exactly when any set expiry is zero or
not in the past. -/
lemma offerExpired_false_iff (now : Nat) (x : Option Nat) :
    offerExpired now x = false ↔ ∀ e, x = some e → e = 0 ∨ now ≤ e := by
  cases x with
  | none => simp [offerExpired]
  | some e =>
    simp only [offerExpired, Bool.and_eq_false_iff, bne_eq_false_iff_eq,
      decide_eq_false_iff_not, Nat.not_lt, Option.some.injEq]
    constructor
    · rintro (h | h) e2 he2 <;> subst he2
      · exact Or.inl h
      · exact Or.inr h
    · intro h
      rcases h e rfl with h | h
      · exact Or.inl h
      · exact Or.inr h

/-- Inversion for a successful execution body: the chain submission returned
the signature, and the spent amount came from the transfer construction. -/
lemma executeBody_ok_inv {K : Type} (wm : WalletManager K) (offer : Offer)
    (env : ExecEnv) (res : String × Nat)
    (h : executeBody wm offer env = .ok res) :
    env.chain = .ok res.1 ∧ constructTransfer offer env = .ok res.2 := by
  unfold executeBody at h
  repeat' split at h
  all_goals simp_all [Prod.ext_iff]

/-- An unsupported asset kind makes the transfer construction fail. -/
lemma constructTransfer_unsupported (offer : Offer) (env : ExecEnv)
    (hs : offer.asset ≠ "SOL") (hu : offer.asset ≠ "USDC") :
    constructTransfer offer env = .error ("Unsupported asset: " ++ offer.asset) := by
  unfold constructTransfer
  rw [if_neg (by simp [hs]), if_neg (by simp [hu])]

/-! ## Claim theorems -/

/-- C1: once an offer has entered the active set inside `handleOffer`, the
run ends with no active-set entry under the offer id, on every terminal path
(failed receipt, injected execution fault, or thrown receipt submission). -/
theorem handleOffer_never_leaks_active_offer
    (cfg : AdmissionConfig) (now : Nat) (active : OfferMap) (offer : Offer)
    (env : DispatchEnv)
    (h : (handleOffer cfg now active offer env).inserted = true) :
    mapLookup (handleOffer cfg now active offer env).activeOffers offer.id = none := by
  unfold handleOffer at h ⊢
  repeat' split at h
  all_goals simp_all [mapLookup_mapDelete]

/-- C1 witness: a concrete run whose execution yields a failed receipt and
whose receipt submission faults, yet the active set ends without the entry. -/
theorem handleOffer_never_leaks_active_offer_witness :
    (handleOffer defaultCfg 1000 [] solOffer faultyEnv).inserted = true
    ∧ mapLookup (handleOffer defaultCfg 1000 [] solOffer faultyEnv).activeOffers
        solOffer.id = none :=
  ⟨by decide,
   handleOffer_never_leaks_active_offer defaultCfg 1000 [] solOffer faultyEnv (by decide)⟩

/-- C3: evidence of the divergence between shutdown and offer handling.
After `nodeStop` has cleared `isRunning`, a valid offer delivered to the
coordinator is still claimed and inserted into the active set —
`handleOffer` never consults the running flag. -/
theorem handleOffer_ignores_shutdown :
    (nodeStop { isRunning := true, activeOffers := [] }).isRunning = false
    ∧ (nodeHandleOffer defaultCfg 1000
        (nodeStop { isRunning := true, activeOffers := [] })
        solOffer happyEnv).2.claimSent = true
    ∧ (nodeHandleOffer defaultCfg 1000
        (nodeStop { isRunning := true, activeOffers := [] })
        solOffer happyEnv).2.inserted = true := by
  decide

/-- C4: a 409 response to the claim request yields the boolean `false`, and a
`false` claim result leaves the active set untouched, inserts nothing,
submits no receipt, and records nothing — the coordinator takes no further
action on the offer. -/
theorem lost_claim_no_side_effects
    (cfg : AdmissionConfig) (now : Nat) (active : OfferMap) (offer : Offer)
    (env : DispatchEnv)
    (h : acceptOffer env.claimReply = .ok false) :
    (∀ statusText, acceptOffer (.response 409 statusText) = .ok false)
    ∧ (handleOffer cfg now active offer env).activeOffers = active
    ∧ (handleOffer cfg now active offer env).inserted = false
    ∧ (handleOffer cfg now active offer env).receiptSubmitted = false
    ∧ (handleOffer cfg now active offer env).recordedAccepted = false
    ∧ (handleOffer cfg now active offer env).recordedCompleted = false
    ∧ (handleOffer cfg now active offer env).recordedFailed = false := by
  refine ⟨fun statusText => rfl, ?_⟩
  unfold handleOffer
  split
  · simp
  · rw [h]
    simp

/-- C4 witness: a concrete lost race takes no further action. -/
theorem lost_claim_no_side_effects_witness :
    (handleOffer defaultCfg 1000 [] solOffer lostRaceEnv).inserted = false
    ∧ (handleOffer defaultCfg 1000 [] solOffer lostRaceEnv).receiptSubmitted = false := by
  have h := lost_claim_no_side_effects defaultCfg 1000 [] solOffer lostRaceEnv (by decide)
  exact ⟨h.2.2.1, h.2.2.2.1⟩

/-- Rotation run characterization: starting at a cursor in range, a run that
stays within one pass returns the wallets from the cursor on, in order, and
leaves the cursor at `(c + k) % N` (so it wraps to 0 after a full pass). -/
lemma runNextCalls_spec {K : Type} (ws : List K) :
    ∀ (k c : Nat), c < ws.length → c + k ≤ ws.length →
      runNextCalls ⟨ws, c⟩ k =
        (((ws.drop c).take k).map some,
         ⟨ws, if c + k < ws.length then c + k else 0⟩) := by
  intro k
  induction k with
  | zero =>
    intro c hc _
    simp only [runNextCalls, List.take_zero, List.map_nil, Nat.add_zero]
    rw [if_pos hc]
  | succ k ih =>
    intro c hc hck
    have hne : ¬ ws.length = 0 := by omega
    have hdrop := List.drop_eq_getElem_cons hc
    have hget : ws.get? c = some ws[c] := by
      rw [List.get?_eq_getElem?, List.getElem?_eq_getElem hc]
    unfold runNextCalls
    simp only [getNextRelayWallet, hne, if_false, ite_false]
    by_cases h1 : c + 1 < ws.length
    · have hmod : (c + 1) % ws.length = c + 1 := Nat.mod_eq_of_lt h1
      rw [hmod, ih (c + 1) h1 (by omega)]
      have hadd : c + 1 + k = c + (k + 1) := by omega
      rw [hadd, hget, hdrop, List.take_succ_cons, List.map_cons]
    · have hceq : c + 1 = ws.length := by omega
      have hk0 : k = 0 := by omega
      subst hk0
      have hmod : (c + 1) % ws.length = 0 := by rw [hceq, Nat.mod_self]
      rw [hmod]
      simp only [runNextCalls]
      rw [hget, hdrop, List.take_succ_cons, List.take_zero, List.map_cons,
        List.map_nil, if_neg (by omega)]

/-- C2: rotation fairness of the relay-wallet pool.  For a nonempty pool with
the cursor at 0, N consecutive calls return each of the N wallets exactly
once, in insertion order, and leave the cursor back at 0, so the next call
returns the first wallet again; each single call advances the cursor by
`(cursor + 1) % N`; and a call on an empty pool throws instead of returning
a wallet. -/
theorem nextRelayWallet_rotation_fairness {K : Type} (ws : List K) (c : Nat)
    (hws : ws ≠ []) :
    (runNextCalls ⟨ws, 0⟩ ws.length).1 = ws.map some
    ∧ (runNextCalls ⟨ws, 0⟩ ws.length).2 = ⟨ws, 0⟩
    ∧ getNextRelayWallet (runNextCalls ⟨ws, 0⟩ ws.length).2
        = .ok (some (ws.head hws), ⟨ws, 1 % ws.length⟩)
    ∧ (c < ws.length →
        getNextRelayWallet ⟨ws, c⟩ = .ok (ws.get? c, ⟨ws, (c + 1) % ws.length⟩))
    ∧ getNextRelayWallet (⟨[], c⟩ : WalletManager K) = .error ("No relay wallets available") := by
  have hlen : 0 < ws.length := List.length_pos.mpr hws
  have hne : ¬ ws.length = 0 := by omega
  have hrun := runNextCalls_spec ws ws.length 0 hlen (by omega)
  rw [if_neg (by omega)] at hrun
  have hhead : ws.get? 0 = some (ws.head hws) := by
    cases ws with
    | nil => exact absurd rfl hws
    | cons a t => rfl
  refine ⟨?_, ?_, ?_, ?_, ?_⟩
  · rw [hrun]; simp
  · rw [hrun]
  · rw [hrun]
    simp only [getNextRelayWallet, hne, if_false, ite_false]
    rw [hhead]
  · intro hc
    simp only [getNextRelayWallet, hne, if_false, ite_false]
  · rfl

/-- C2 witness: a concrete three-wallet pool rotates fairly and wraps. -/
theorem nextRelayWallet_rotation_fairness_witness :
    (runNextCalls (⟨[10, 20, 30], 0⟩ : WalletManager Nat) 3).1
      = [some 10, some 20, some 30]
    ∧ getNextRelayWallet (runNextCalls (⟨[10, 20, 30], 0⟩ : WalletManager Nat) 3).2
        = .ok (some 10, ⟨[10, 20, 30], 1⟩) := by
  have h := nextRelayWallet_rotation_fairness (K := Nat) [10, 20, 30] 0 (by decide)
  refine ⟨by simpa using h.1, ?_⟩
  have h3 := h.2.2.1
  simpa using h3

/-- C5 counterexample: admission succeeds at the expiry boundary.  An offer
whose expiry equals the current instant (1000, not in the future of 1000)
passes admission, and so does an offer whose expiry is the zero timestamp
(long in the past of instant 5), because the JS expiry condition uses a
strict comparison and treats a zero expiry as unset. -/
theorem validateOffer_expiry_boundary_cex :
    validateOffer defaultCfg 0 1000 boundaryOffer = true
    ∧ boundaryOffer.expiresAt = some 1000
    ∧ ¬ (1000 < 1000)
    ∧ validateOffer defaultCfg 0 5 zeroExpiryOffer = true
    ∧ zeroExpiryOffer.expiresAt = some 0
    ∧ 0 < 5 := by
  decide

/-- C5 (amended): admission holds exactly when the base-asset ceiling is
respected (the ceiling binds only base-asset offers), the active-set size is
below the configured maximum, and any set expiry is either the zero
timestamp (treated as unset) or not earlier than the current time; moreover
a base-asset offer over the ceiling is dropped with no claim attempted,
regardless of active-set size or expiry. -/
theorem validateOffer_characterization
    (cfg : AdmissionConfig) (active : OfferMap) (now : Nat) (offer : Offer)
    (env : DispatchEnv) :
    (validateOffer cfg active.length now offer = true ↔
      ((offer.asset = "SOL" → offer.amount ≤ cfg.maxPerTxLamports)
        ∧ active.length < cfg.maxConcurrent
        ∧ (∀ e, offer.expiresAt = some e → e = 0 ∨ now ≤ e)))
    ∧ (offer.asset = "SOL" → cfg.maxPerTxLamports < offer.amount →
        validateOffer cfg active.length now offer = false
        ∧ (handleOffer cfg now active offer env).claimSent = false
        ∧ (handleOffer cfg now active offer env).activeOffers = active
        ∧ (handleOffer cfg now active offer env).inserted = false) := by
  constructor
  · unfold validateOffer
    split_ifs with h1 h2 h3
    · simp only [Bool.false_eq_true, false_iff]
      rintro ⟨ha, _, _⟩
      have := ha h1.1
      omega
    · simp only [Bool.false_eq_true, false_iff]
      rintro ⟨_, hlt, _⟩
      omega
    · simp only [Bool.false_eq_true, false_iff]
      rintro ⟨_, _, hexp⟩
      rw [(offerExpired_false_iff now offer.expiresAt).mpr hexp] at h3
      exact absurd h3 (by simp)
    · simp only [true_iff]
      refine ⟨?_, by omega, ?_⟩
      · intro hA
        by_contra hgt
        exact h1 ⟨hA, by omega⟩
      · exact (offerExpired_false_iff now offer.expiresAt).mp (by
          revert h3
          cases offerExpired now offer.expiresAt <;> simp)
  · intro hA hAmt
    have hv : validateOffer cfg active.length now offer = false := by
      unfold validateOffer
      rw [if_pos ⟨hA, hAmt⟩]
    have hh : handleOffer cfg now active offer env =
        ⟨active, false, false, false, false, false, false⟩ := by
      unfold handleOffer
      rw [hv]
      simp
    rw [hh]
    exact ⟨hv, rfl, rfl, rfl⟩

/-- C5 witness: the 600000000-lamport base-asset offer is dropped before any
claim, while a secondary-asset offer of the same amount passes the ceiling
check (the ceiling binds only the base asset). -/
theorem validateOffer_characterization_witness :
    validateOffer defaultCfg 0 1000 bigOffer = false
    ∧ (handleOffer defaultCfg 1000 [] bigOffer happyEnv).claimSent = false
    ∧ validateOffer defaultCfg 0 1000 usdcBigOffer = true := by
  have h := validateOffer_characterization defaultCfg [] 1000 bigOffer happyEnv
  have h2 := h.2 (by decide) (by decide)
  have hu := validateOffer_characterization defaultCfg [] 1000 usdcBigOffer happyEnv
  refine ⟨h2.1, h2.2.1, hu.1.mpr ⟨?_, by decide, ?_⟩⟩
  · intro hA
    exact absurd hA (by decide)
  · intro e he
    simp [usdcBigOffer] at he

/-- C6: `validateBalances` throws the insufficient-funds error exactly when
every wallet balance is below the 0.01 SOL minimum; one wallet at or above
the minimum makes it succeed, with the low-balance warning naming exactly
the under-funded wallets.  Concretely, balances [0.005, 0.02, 0] SOL pass
and balances [0.005, 0.009, 0] SOL fail. -/
theorem validateBalances_threshold (balances : List Nat) :
    ((validateBalances balances).1 = .error insufficientMsg ↔
      ∀ b ∈ balances, b < minBalanceLamports)
    ∧ ((∃ b ∈ balances, minBalanceLamports ≤ b) →
        (validateBalances balances).1 = .ok ())
    ∧ (validateBalances balances).2
        = balances.filter (fun b => b < minBalanceLamports)
    ∧ (validateBalances [5000000, 20000000, 0]).1 = .ok ()
    ∧ (validateBalances [5000000, 9000000, 0]).1 = .error insufficientMsg := by
  refine ⟨?_, ?_, rfl, by decide, by decide⟩
  · unfold validateBalances
    simp only []
    split_ifs with h
    · have hall := (filter_length_eq_iff (fun b => decide (b < minBalanceLamports))
        balances).mp h
      simp only [decide_eq_true_eq] at hall
      exact ⟨fun _ => hall, fun _ => rfl⟩
    · constructor
      · intro hE
        exact absurd hE (by simp)
      · intro hall
        exact absurd ((filter_length_eq_iff (fun b => decide (b < minBalanceLamports))
          balances).mpr (by intro b hb; simpa using hall b hb)) h
  · rintro ⟨b, hb, hbe⟩
    unfold validateBalances
    simp only []
    rw [if_neg]
    intro hlen
    have := (filter_length_eq_iff (fun b => decide (b < minBalanceLamports))
      balances).mp hlen b hb
    simp only [decide_eq_true_eq] at this
    omega

/-- C6 witness: the [0.005, 0.02, 0] SOL pool passes validation because the
second wallet is at or above the minimum. -/
theorem validateBalances_threshold_witness :
    (validateBalances [5000000, 20000000, 0]).1 = .ok () := by
  have h := validateBalances_threshold [5000000, 20000000, 0]
  exact h.2.1 ⟨20000000, by decide, by decide⟩

/-- C7: `execute` always produces a receipt.  A failed run yields a receipt
with an empty signature, zero spent amount and fee, and an error message; a
successful run carries the confirmed chain signature and no error; an
unsupported asset kind and a thrown chain submission are failed runs, not
faults. -/
theorem execute_total_receipt {K : Type} (wm : WalletManager K) (offer : Offer)
    (env : ExecEnv) (now : Nat) :
    ((execute wm offer env now).success = false →
      (execute wm offer env now).txSignature = ""
      ∧ (execute wm offer env now).spentLamports = 0
      ∧ (execute wm offer env now).feePaid = 0
      ∧ ∃ msg, (execute wm offer env now).error = some msg)
    ∧ ((execute wm offer env now).success = true →
        ∃ sig, env.chain = .ok sig
          ∧ (execute wm offer env now).txSignature = sig
          ∧ (execute wm offer env now).error = none)
    ∧ (offer.asset ≠ "SOL" → offer.asset ≠ "USDC" →
        (execute wm offer env now).success = false)
    ∧ (∀ msg, env.chain = .error msg →
        (execute wm offer env now).success = false) := by
  rcases hb : executeBody wm offer env with msg | res
  · refine ⟨?_, ?_, ?_, ?_⟩ <;> simp [execute, hb]
  · have hinv := executeBody_ok_inv wm offer env res hb
    refine ⟨?_, ?_, ?_, ?_⟩
    · simp [execute, hb]
    · intro _
      exact ⟨res.1, hinv.1, by simp [execute, hb], by simp [execute, hb]⟩
    · intro hs hu
      have hct := constructTransfer_unsupported offer env hs hu
      have h2 := hinv.2
      rw [hct] at h2
      exact absurd h2 (by simp)
    · intro msg hmsg
      have h1 := hinv.1
      rw [hmsg] at h1
      exact absurd h1 (by simp)

/-- C7 witness: an unsupported asset kind is converted into a failure
receipt with an empty signature. -/
theorem execute_total_receipt_witness :
    (execute wm1 dogeOffer okExecEnv 42).success = false
    ∧ (execute wm1 dogeOffer okExecEnv 42).txSignature = "" := by
  have h := execute_total_receipt wm1 dogeOffer okExecEnv 42
  have hf := h.2.2.1 (by decide) (by decide)
  exact ⟨hf, (h.1 hf).1⟩

/-- C8: on a successful execution the receipt spends the requested amount for
the base asset, and only the token-account creation fee (zero when no
creation was needed) for the secondary asset, with the confirmed signature,
the offer fee, and the success flag. -/
theorem execute_success_accounting {K : Type} (wm : WalletManager K)
    (offer : Offer) (env : ExecEnv) (now : Nat) (w : K)
    (wm2 : WalletManager K) (sig : String)
    (hsel : getNextRelayWallet wm = .ok (some w, wm2))
    (hrec : env.parseRecipient = .ok ())
    (hbh : env.blockhash = .ok ())
    (hchain : env.chain = .ok sig) :
    (offer.asset = "SOL" →
      execute wm offer env now =
        { partId := offer.partId, txSignature := sig,
          spentLamports := offer.amount, feePaid := offer.feeLamports,
          timestamp := now, success := true, error := none })
    ∧ (offer.asset = "USDC" →
        execute wm offer env now =
          { partId := offer.partId, txSignature := sig,
            spentLamports := if env.recipientAtaExists then 0
              else ataCreationFeeLamports,
            feePaid := offer.feeLamports, timestamp := now, success := true,
            error := none }) := by
  constructor
  · intro hA
    have hct : constructTransfer offer env = .ok offer.amount := by
      unfold constructTransfer
      rw [if_pos hA, hbh]
    unfold execute executeBody
    simp only [hsel, hrec, hct, hchain]
  · intro hA
    have hct : constructTransfer offer env =
        .ok (if env.recipientAtaExists then 0 else ataCreationFeeLamports) := by
      unfold constructTransfer
      rw [if_neg (by rw [hA]; decide), if_pos hA, hbh]
    unfold execute executeBody
    simp only [hsel, hrec, hct, hchain]

/-- C8 witness: the 10000000-lamport base-asset offer confirmed with
signature SIG1 yields exactly the receipt of the specification example. -/
theorem execute_success_accounting_witness :
    execute wm1 execOffer okExecEnv 42 =
      { partId := "part-9", txSignature := "SIG1", spentLamports := 10000000,
        feePaid := 500, timestamp := 42, success := true, error := none } := by
  have h := execute_success_accounting wm1 execOffer okExecEnv 42 7 ⟨[7], 0⟩
    "SIG1" (by decide) rfl rfl rfl
  exact h.1 rfl

/-- C9 counterexample: a transport-level `fetch` rejection is not swallowed
by `sendHeartbeat` — the call throws the failure to its caller instead of
returning normally. -/
theorem sendHeartbeat_transport_error_cex :
    sendHeartbeat (.network ("fetch failed")) = .error ("fetch failed")
    ∧ sendHeartbeat (.network ("fetch failed")) ≠ .ok () := by
  decide

/-- C9 (amended): `sendHeartbeat` returns normally for every resolved HTTP
response, success or not (a non-ok response is only logged); a transport
error does propagate out of `sendHeartbeat`, but the coordinator heartbeat
tick catches it and records a heartbeat error, so every tick ends normally
with exactly one counter incremented. -/
theorem sendHeartbeat_best_effort :
    (∀ status statusText, sendHeartbeat (.response status statusText) = .ok ())
    ∧ (∀ m msg, heartbeatTick m (.network msg)
        = { m with heartbeatErrors := m.heartbeatErrors + 1 })
    ∧ (∀ (m : MetricsState) (reply : HttpReply),
        (heartbeatTick m reply).heartbeats + (heartbeatTick m reply).heartbeatErrors
          = m.heartbeats + m.heartbeatErrors + 1) := by
  refine ⟨fun _ _ => rfl, fun m msg => rfl, ?_⟩
  intro m reply
  cases reply <;> simp [heartbeatTick, sendHeartbeat] <;> omega

/-- C10: the health status is a function of the wallet balances against the
0.01 SOL minimum alone: healthy when no wallet is below it, unhealthy when
all are, degraded when some but not all are (the pool is nonempty by
construction — startup requires at least one relay signer). -/
theorem getHealthStatus_characterization (wallets : List Nat)
    (hne : wallets ≠ []) :
    (getHealthStatus wallets = .healthy ↔
      ∀ b ∈ wallets, minBalanceLamports ≤ b)
    ∧ (getHealthStatus wallets = .unhealthy ↔
        ∀ b ∈ wallets, b < minBalanceLamports)
    ∧ (getHealthStatus wallets = .degraded ↔
        ((∃ b ∈ wallets, b < minBalanceLamports)
          ∧ ∃ b ∈ wallets, minBalanceLamports ≤ b)) := by
  have hpos := filter_length_pos_iff (fun b => decide (b < minBalanceLamports)) wallets
  have hall := filter_length_eq_iff (fun b => decide (b < minBalanceLamports)) wallets
  unfold getHealthStatus
  simp only []
  split_ifs with h1 h2
  · have hallb : ∀ b ∈ wallets, b < minBalanceLamports := by
      intro b hb
      have := hall.mp h2 b hb
      simpa using this
    refine ⟨?_, ?_, ?_⟩
    · constructor
      · intro hc; simp at hc
      · intro hge
        exfalso
        rcases List.exists_mem_of_ne_nil wallets hne with ⟨b, hb⟩
        have ha := hallb b hb
        have hg := hge b hb
        omega
    · exact ⟨fun _ => hallb, fun _ => rfl⟩
    · constructor
      · intro hc; simp at hc
      · rintro ⟨_, ⟨b, hb, hge⟩⟩
        have := hallb b hb
        omega
  · have hex : ∃ b ∈ wallets, b < minBalanceLamports := by
      have := hpos.mp h1
      simpa using this
    have hnotall : ¬ ∀ b ∈ wallets, b < minBalanceLamports := by
      intro hcontra
      exact h2 (hall.mpr (by intro b hb; simpa using hcontra b hb))
    have hex2 : ∃ b ∈ wallets, minBalanceLamports ≤ b := by
      push_neg at hnotall
      rcases hnotall with ⟨b, hb, hnb⟩
      exact ⟨b, hb, by omega⟩
    refine ⟨?_, ?_, ?_⟩
    · constructor
      · intro hc; simp at hc
      · intro hge
        rcases hex with ⟨b, hb, hlt⟩
        have := hge b hb
        omega
    · constructor
      · intro hc; simp at hc
      · intro hall2
        exact absurd hall2 hnotall
    · exact ⟨fun _ => ⟨hex, hex2⟩, fun _ => rfl⟩
  · have hnone : ∀ b ∈ wallets, minBalanceLamports ≤ b := by
      intro b hb
      by_contra hlt
      exact h1 (hpos.mpr ⟨b, hb, by simpa using Nat.lt_of_not_le hlt⟩)
    refine ⟨?_, ?_, ?_⟩
    · exact ⟨fun _ => hnone, fun _ => rfl⟩
    · constructor
      · intro hc; simp at hc
      · intro hallb
        rcases List.exists_mem_of_ne_nil wallets hne with ⟨b, hb⟩
        have hg := hnone b hb
        have hl := hallb b hb
        omega
    · constructor
      · intro hc; simp at hc
      · rintro ⟨⟨b, hb, hlt⟩, _⟩
        have := hnone b hb
        omega

/-- C10 witness: one under-funded and one funded wallet give a degraded
status. -/
theorem getHealthStatus_characterization_witness :
    getHealthStatus [5000000, 20000000] = .degraded := by
  have h := getHealthStatus_characterization [5000000, 20000000] (by decide)
  exact h.2.2.mpr ⟨⟨5000000, by decide, by decide⟩, ⟨20000000, by decide, by decide⟩⟩

end ShhCash
